import Mathlib

/-!
Verification of the per-frame interaction/render pipeline of the
creative-camera toys: coordinate mapping, gesture predicates, dwell
timers, the time-slice camera state machine, the grid-stretch effect,
the tear-drop physics step and the landmark staleness discipline.

All numeric quantities are modelled over the rationals; the JavaScript
sources compute over IEEE doubles, and every claim here is about the
exact real-number formulas those sources write down.
-/

/-- A normalized landmark produced by the external detector. -/
structure Landmark where
  x : ℚ
  y : ℚ
  z : ℚ
deriving Repr, DecidableEq

/-- A point in canvas pixel space. -/
structure Pt where
  x : ℚ
  y : ℚ
deriving Repr, DecidableEq

/-- Indexing into a landmark list; out-of-range access yields the zero
landmark (the sources only index after a length guard, or on arrays the
detector always fills). -/
def lget (lm : List Landmark) (i : ℕ) : Landmark :=
  lm.getD i ⟨0, 0, 0⟩

/-- Indexing into a list of hands. -/
def lget2 (hs : List (List Landmark)) (i : ℕ) : List Landmark :=
  hs.getD i []

-- =============================================================
-- Coordinate mapping
-- =============================================================

/-- Embedding of getMappedCoords from the tear-filter app: cover
scale, centering offsets, optional horizontal mirror, then zoom about
the canvas center. -/
def getMappedCoords (cW cH vW vH zoom nx ny : ℚ) (mirrorX : Bool) : Pt :=
  let scale := max (cW / vW) (cH / vH)
  let targetW := vW * scale
  let targetH := vH * scale
  let offX := (cW - targetW) / 2
  let offY := (cH - targetH) / 2
  let px := if mirrorX then 1 - nx else nx
  let ucX := offX + px * targetW
  let ucY := offY + ny * targetH
  ⟨cW / 2 + (ucX - cW / 2) * zoom, cH / 2 + (ucY - cH / 2) * zoom⟩

/-- Embedding of getScreenCoord from the time-slice camera: the zoom
is folded into the cover scale before the centering offsets are taken. -/
def getScreenCoord (canvasW canvasH imgW imgH zoom nx ny : ℚ) : Pt :=
  let baseScale := max (canvasW / imgW) (canvasH / imgH)
  let scale := baseScale * zoom
  let drawW := imgW * scale
  let drawH := imgH * scale
  let offsetX := (canvasW - drawW) / 2
  let offsetY := (canvasH - drawH) / 2
  ⟨offsetX + nx * drawW, offsetY + ny * drawH⟩

/-- Spec-side cover formula, written exactly as the specification
words it: scale = max of the width and height ratios, target = video
size times scale, offsets center the target, x is mirrored to 1 - nx
when the flag is set, and the zoom acts about the canvas center via
final = center + (point - center) * zoom. -/
def coverMapSpec (cW cH vW vH zoom nx ny : ℚ) (mirrorX : Bool) : Pt :=
  let scale := max (cW / vW) (cH / vH)
  let targetW := vW * scale
  let targetH := vH * scale
  let offX := (cW - targetW) / 2
  let offY := (cH - targetH) / 2
  let px := if mirrorX then 1 - nx else nx
  let pointX := offX + px * targetW
  let pointY := offY + ny * targetH
  ⟨cW / 2 + (pointX - cW / 2) * zoom, cH / 2 + (pointY - cH / 2) * zoom⟩

/-- C1: the coordinate mapper is the cover scale-and-center formula of
the specification, with mirroring as 1 - nx and zoom about the canvas
center; it is a pure function of exactly its inputs.  The first
conjunct identifies the tear-filter mapper with the spec formula; the
second shows the time-slice mapper, which folds zoom into the scale,
equals the same zoom-about-center formula applied to its unzoomed
output, so both apps implement the claimed formula. -/
theorem coordinate_mapper_cover_formula :
    (∀ cW cH vW vH zoom nx ny m,
      getMappedCoords cW cH vW vH zoom nx ny m =
        coverMapSpec cW cH vW vH zoom nx ny m) ∧
    (∀ cW cH iW iH zoom nx ny,
      getScreenCoord cW cH iW iH zoom nx ny =
        ⟨cW / 2 + ((getScreenCoord cW cH iW iH 1 nx ny).x - cW / 2) * zoom,
         cH / 2 + ((getScreenCoord cW cH iW iH 1 nx ny).y - cH / 2) * zoom⟩) := by
  constructor
  · intro cW cH vW vH zoom nx ny m
    rfl
  · intro cW cH iW iH zoom nx ny
    simp only [getScreenCoord, Pt.mk.injEq]
    constructor <;> ring

-- =============================================================
-- Gesture predicates (gestureUtils of the time-slice camera)
-- =============================================================

/-- Embedding of isPointingUp: index tip above its PIP, the other
three fingertips below their PIPs.  The input is an optional list to
model a null or undefined landmark argument. -/
def isPointingUp (lm : Option (List Landmark)) : Bool :=
  match lm with
  | none => false
  | some landmarks =>
    if landmarks.length < 21 then false
    else
      decide ((lget landmarks 8).y < (lget landmarks 6).y) &&
      decide ((lget landmarks 12).y > (lget landmarks 10).y) &&
      decide ((lget landmarks 16).y > (lget landmarks 14).y) &&
      decide ((lget landmarks 20).y > (lget landmarks 18).y)

/-- Embedding of isHandClosed: all four fingertips below their PIPs. -/
def isHandClosed (lm : Option (List Landmark)) : Bool :=
  match lm with
  | none => false
  | some landmarks =>
    if landmarks.length < 21 then false
    else
      decide ((lget landmarks 8).y > (lget landmarks 6).y) &&
      decide ((lget landmarks 12).y > (lget landmarks 10).y) &&
      decide ((lget landmarks 16).y > (lget landmarks 14).y) &&
      decide ((lget landmarks 20).y > (lget landmarks 18).y)

/-- Embedding of isPinching.  The source compares the Euclidean
distance Math.sqrt (dx*dx + dy*dy) of index tip and thumb tip against
0.05; since both sides are nonnegative this comparison is equivalent
to dx*dx + dy*dy < 0.0025 = 1/400, which is how the square root is
discharged here. -/
def isPinching (lm : Option (List Landmark)) : Bool :=
  match lm with
  | none => false
  | some landmarks =>
    if landmarks.length < 21 then false
    else
      let dx := (lget landmarks 8).x - (lget landmarks 4).x
      let dy := (lget landmarks 8).y - (lget landmarks 4).y
      decide (dx * dx + dy * dy < 1 / 400)

/-- Embedding of isVictoryHand: index and middle tips above their
PIPs, ring and pinky tips below. -/
def isVictoryHand (lm : Option (List Landmark)) : Bool :=
  match lm with
  | none => false
  | some landmarks =>
    if landmarks.length < 21 then false
    else
      decide ((lget landmarks 8).y < (lget landmarks 6).y) &&
      decide ((lget landmarks 12).y < (lget landmarks 10).y) &&
      decide ((lget landmarks 16).y > (lget landmarks 14).y) &&
      decide ((lget landmarks 20).y > (lget landmarks 18).y)

/-- Embedding of the gun-gesture test of the catch game: active when
the thumb tip is higher on screen (smaller y) than the index tip. -/
def gunIsActive (landmarks : List Landmark) : Bool :=
  decide ((lget landmarks 4).y < (lget landmarks 8).y)

/-- C8: every gesture predicate returns false on a null or undefined
landmark list and on any list with fewer than 21 entries; the guard
fires before any landmark index is read. -/
theorem gesture_predicates_total (lm : Option (List Landmark))
    (h : lm = none ∨ ∃ l, lm = some l ∧ l.length < 21) :
    isPointingUp lm = false ∧ isHandClosed lm = false ∧
    isPinching lm = false ∧ isVictoryHand lm = false := by
  rcases h with h | ⟨l, rfl, hl⟩
  · subst h
    exact ⟨rfl, rfl, rfl, rfl⟩
  · simp [isPointingUp, isHandClosed, isPinching, isVictoryHand, hl]

/-- Witness for C8 at the concrete input of a five-entry list. -/
theorem gesture_predicates_total_witness :
    isPointingUp (some (List.replicate 5 ⟨0, 0, 0⟩)) = false ∧
    isHandClosed (some (List.replicate 5 ⟨0, 0, 0⟩)) = false ∧
    isPinching (some (List.replicate 5 ⟨0, 0, 0⟩)) = false ∧
    isVictoryHand (some (List.replicate 5 ⟨0, 0, 0⟩)) = false :=
  gesture_predicates_total (some (List.replicate 5 ⟨0, 0, 0⟩))
    (Or.inr ⟨List.replicate 5 ⟨0, 0, 0⟩, rfl, by simp⟩)

/-- C9: on any list with at least 21 entries, at most one of
isPointingUp, isHandClosed and isVictoryHand holds: pointing and
closed disagree on the index tip, victory and the other two disagree
on the middle or index tip. -/
theorem gesture_predicates_exclusive (l : List Landmark)
    (h : 21 ≤ l.length) :
    (isPointingUp (some l) = true → isHandClosed (some l) = false ∧
      isVictoryHand (some l) = false) ∧
    (isHandClosed (some l) = true → isVictoryHand (some l) = false) := by
  have hl : ¬ l.length < 21 := by omega
  simp only [isPointingUp, isHandClosed, isVictoryHand, if_neg hl,
    Bool.and_eq_true, decide_eq_true_eq, gt_iff_lt, Bool.and_eq_false_iff,
    decide_eq_false_iff_not, not_lt]
  constructor
  · rintro ⟨⟨⟨h86, h1012⟩, -⟩, -⟩
    constructor
    · exact Or.inl (Or.inl (Or.inl (le_of_lt h86)))
    · exact Or.inl (Or.inl (Or.inr (le_of_lt h1012)))
  · rintro ⟨⟨⟨h68, -⟩, -⟩, -⟩
    exact Or.inl (Or.inl (Or.inl (le_of_lt h68)))

/-- Witness for C9 at a concrete 21-entry list. -/
theorem gesture_predicates_exclusive_witness :
    (isPointingUp (some (List.replicate 21 ⟨0, 0, 0⟩)) = true →
      isHandClosed (some (List.replicate 21 ⟨0, 0, 0⟩)) = false ∧
      isVictoryHand (some (List.replicate 21 ⟨0, 0, 0⟩)) = false) ∧
    (isHandClosed (some (List.replicate 21 ⟨0, 0, 0⟩)) = true →
      isVictoryHand (some (List.replicate 21 ⟨0, 0, 0⟩)) = false) :=
  gesture_predicates_exclusive (List.replicate 21 ⟨0, 0, 0⟩) (by simp)

-- =============================================================
-- C2: what the classifiers actually compare
-- =============================================================

/-- Landmark list with 21 zero entries; the thumb and index tips
coincide, so the pinch distance is zero. -/
def pinchWitnessA : List Landmark := List.replicate 21 ⟨0, 0, 0⟩

/-- The same list with the thumb tip moved to x = 1; every y
coordinate is unchanged but the pinch distance becomes 1. -/
def pinchWitnessB : List Landmark :=
  (List.replicate 21 (⟨0, 0, 0⟩ : Landmark)).set 4 ⟨1, 0, 0⟩

/-- Counterexample for C2: the pinch classifier is not a function of
the y coordinates at all, let alone of tip-versus-PIP y comparisons.
The two lists below agree on every y coordinate yet isPinching
answers differently, because isPinching compares the Euclidean
distance of index tip and thumb tip to 0.05. -/
theorem gesture_y_comparison_counterexample :
    pinchWitnessA.map Landmark.y = pinchWitnessB.map Landmark.y ∧
    isPinching (some pinchWitnessA) = true ∧
    isPinching (some pinchWitnessB) = false := by
  refine ⟨by decide, ?_, ?_⟩
  · norm_num [isPinching, pinchWitnessA, lget]
  · norm_num [isPinching, pinchWitnessB, lget]

/-- C2 amended: on a full skeleton, point, fist and victory are the
claimed tip-versus-PIP y comparisons; pinch instead holds iff the
Euclidean distance between index tip and thumb tip is below 0.05
(equivalently its square is below 1/400); and the thumb-up gun
gesture compares the thumb tip y to the index tip y. -/
theorem gesture_detector_amended (l : List Landmark)
    (h : 21 ≤ l.length) :
    isPointingUp (some l) =
      (decide ((lget l 8).y < (lget l 6).y) &&
       decide ((lget l 12).y > (lget l 10).y) &&
       decide ((lget l 16).y > (lget l 14).y) &&
       decide ((lget l 20).y > (lget l 18).y)) ∧
    isHandClosed (some l) =
      (decide ((lget l 8).y > (lget l 6).y) &&
       decide ((lget l 12).y > (lget l 10).y) &&
       decide ((lget l 16).y > (lget l 14).y) &&
       decide ((lget l 20).y > (lget l 18).y)) ∧
    isVictoryHand (some l) =
      (decide ((lget l 8).y < (lget l 6).y) &&
       decide ((lget l 12).y < (lget l 10).y) &&
       decide ((lget l 16).y > (lget l 14).y) &&
       decide ((lget l 20).y > (lget l 18).y)) ∧
    isPinching (some l) =
      decide (((lget l 8).x - (lget l 4).x) * ((lget l 8).x - (lget l 4).x) +
        ((lget l 8).y - (lget l 4).y) * ((lget l 8).y - (lget l 4).y) < 1 / 400) ∧
    gunIsActive l = decide ((lget l 4).y < (lget l 8).y) := by
  have hl : ¬ l.length < 21 := by omega
  refine ⟨?_, ?_, ?_, ?_, rfl⟩ <;> simp [isPointingUp, isHandClosed,
    isVictoryHand, isPinching, hl]

/-- Witness for the amended C2 at a concrete 21-entry list. -/
theorem gesture_detector_amended_witness :
    isPinching (some pinchWitnessA) =
      decide (((lget pinchWitnessA 8).x - (lget pinchWitnessA 4).x) *
        ((lget pinchWitnessA 8).x - (lget pinchWitnessA 4).x) +
        ((lget pinchWitnessA 8).y - (lget pinchWitnessA 4).y) *
        ((lget pinchWitnessA 8).y - (lget pinchWitnessA 4).y) < 1 / 400) :=
  (gesture_detector_amended pinchWitnessA (by decide)).2.2.2.1

-- =============================================================
-- Dwell timers
-- =============================================================

/-- Application states of the time-slice camera. -/
inductive AppState where
  | IDLE
  | RESIZING
  | FROZEN
deriving Repr, DecidableEq

/-- Effect modes of the time-slice camera. -/
inductive EffectMode where
  | NORMAL
  | GRID_STRETCH
  | SLICE_3D
  | PIXEL_GRID
  | SHREDDER
  | SANTA_WALKER
  | PIXEL_TEXT
deriving Repr, DecidableEq

/-- One frame of the shared dwell-timer pattern of the reset and the
effect-switch triggers: when the gate holds, the start time is taken
from the stored reference or initialized to the current time, and the
action fires once the elapsed time strictly exceeds the threshold,
clearing the reference; when the gate fails the reference is cleared
and nothing fires. -/
def dwellStep (threshold : ℚ) (gate : Bool) (start : Option ℚ)
    (now : ℚ) : Option ℚ × Bool :=
  if gate then
    let s := start.getD now
    if now - s > threshold then (none, true) else (some s, false)
  else (none, false)

/-- Gate of the reset trigger: exactly two hands, both closed fists. -/
def isResetGesture (hands : Option (List (List Landmark))) : Bool :=
  match hands with
  | some hs =>
    if hs.length = 2 then
      isHandClosed (some (lget2 hs 0)) && isHandClosed (some (lget2 hs 1))
    else false
  | none => false

/-- Gate of the effect-switch trigger: the app is FROZEN and some hand
holds the victory sign. -/
def effectSwitchGate (state : AppState) (isVictory : Bool) : Bool :=
  decide (state = AppState.FROZEN) && isVictory

/-- Stored interaction state of the hover-to-click button logic of the
tear-filter app. -/
structure InteractState where
  element : Option ℕ
  startTime : ℚ
deriving Repr, DecidableEq

/-- One frame of the button dwell logic: pointing at a new button
records it with the current time; keeping the pointer on the same
button clicks it once the elapsed time strictly exceeds 600 ms, after
which the start time is pushed 1000 ms into the future as a cooldown;
pointing at no button clears the stored element. -/
def buttonDwellStep (btn : Option ℕ) (st : InteractState)
    (now : ℚ) : InteractState × Bool :=
  match btn with
  | some b =>
    if st.element ≠ some b then (⟨some b, now⟩, false)
    else if now - st.startTime > 600 then (⟨some b, now + 1000⟩, true)
    else (st, false)
  | none => (⟨none, st.startTime⟩, false)

/-- Folding the dwell step over a list of (gate, time) frames. -/
def dwellRun (threshold : ℚ) (start : Option ℚ)
    (frames : List (Bool × ℚ)) : Option ℚ :=
  frames.foldl (fun s f => (dwellStep threshold f.1 s f.2).1) start

/-- Folding the button dwell step over a list of (button, time)
frames. -/
def buttonRun (st : InteractState)
    (frames : List (Option ℕ × ℚ)) : InteractState :=
  frames.foldl (fun s f => (buttonDwellStep f.1 s f.2).1) st

/-- Helper: a continuously held gate whose frames all stay within the
threshold keeps the initial start time and never fires. -/
theorem dwellRun_held_within (th t0 : ℚ) (hth : 0 ≤ th) (ts : List ℚ)
    (hts : ∀ u ∈ ts, u - t0 ≤ th) :
    dwellRun th none ((true, t0) :: ts.map fun u => (true, u)) = some t0 := by
  have h0 : dwellStep th true none t0 = (some t0, false) := by
    simp [dwellStep]
    linarith
  induction ts with
  | nil => simp [dwellRun, h0]
  | cons u us ih =>
    have hu : u - t0 ≤ th := hts u (by simp)
    have hstep : dwellStep th true (some t0) u = (some t0, false) := by
      simp [dwellStep]
      linarith
    have hus : ∀ v ∈ us, v - t0 ≤ th := fun v hv => hts v (by simp [hv])
    have ih2 := ih hus
    simp only [dwellRun, List.map_cons, List.foldl_cons, h0] at ih2 ⊢
    simpa [hstep] using ih2

/-- Helper: keeping the pointer on button b with frames within the
600 ms threshold keeps the recorded start time and never clicks. -/
theorem buttonRun_held_within (b : ℕ) (t0 : ℚ) (ts : List ℚ)
    (hts : ∀ u ∈ ts, u - t0 ≤ 600) (st0 : InteractState)
    (h0 : st0.element = none) :
    buttonRun st0 ((some b, t0) :: ts.map fun u => (some b, u)) =
      ⟨some b, t0⟩ := by
  have hfirst : (buttonDwellStep (some b) st0 t0).1 = ⟨some b, t0⟩ := by
    simp [buttonDwellStep, h0]
  induction ts with
  | nil => simp [buttonRun, hfirst]
  | cons u us ih =>
    have hu : u - t0 ≤ 600 := hts u (by simp)
    have hstep : (buttonDwellStep (some b) ⟨some b, t0⟩ u).1 = ⟨some b, t0⟩ := by
      simp [buttonDwellStep]
      rw [if_neg (show ¬ (600 : ℚ) < u - t0 by linarith)]
    have hus : ∀ v ∈ us, v - t0 ≤ 600 := fun v hv => hts v (by simp [hv])
    have ih2 := ih hus
    simp only [buttonRun, List.map_cons, List.foldl_cons, hfirst] at ih2 ⊢
    simpa [hstep] using ih2

/-- C3: each trigger fires exactly when the continuously held gesture
has been held strictly longer than its threshold (1500 ms two-fist
reset, 2000 ms victory effect switch, 600 ms pointing button click);
while held within the threshold the recorded start time is kept
unchanged and nothing fires, and on any frame where the gesture is
absent the timer is cleared and nothing fires, so the dwell restarts
from zero on the next held frame. -/
theorem dwell_timers_fire_at_thresholds :
    (∀ (s : Option ℚ) (t : ℚ) (hands : Option (List (List Landmark))),
      isResetGesture hands = false →
      dwellStep 1500 (isResetGesture hands) s t = (none, false)) ∧
    (∀ (t0 t : ℚ) (ts : List ℚ), (∀ u ∈ ts, u - t0 ≤ 1500) →
      dwellRun 1500 none ((true, t0) :: ts.map fun u => (true, u)) = some t0 ∧
      ((dwellStep 1500 true (some t0) t).2 = true ↔ 1500 < t - t0)) ∧
    (∀ (s : Option ℚ) (t : ℚ) (st : AppState) (v : Bool),
      effectSwitchGate st v = false →
      dwellStep 2000 (effectSwitchGate st v) s t = (none, false)) ∧
    (∀ (t0 t : ℚ) (ts : List ℚ), (∀ u ∈ ts, u - t0 ≤ 2000) →
      dwellRun 2000 none ((true, t0) :: ts.map fun u => (true, u)) = some t0 ∧
      ((dwellStep 2000 true (some t0) t).2 = true ↔ 2000 < t - t0)) ∧
    (∀ (st : InteractState) (t : ℚ),
      buttonDwellStep none st t = (⟨none, st.startTime⟩, false)) ∧
    (∀ (b : ℕ) (t0 t : ℚ) (ts : List ℚ), (∀ u ∈ ts, u - t0 ≤ 600) →
      buttonRun ⟨none, 0⟩ ((some b, t0) :: ts.map fun u => (some b, u)) =
        ⟨some b, t0⟩ ∧
      ((buttonDwellStep (some b) ⟨some b, t0⟩ t).2 = true ↔
        600 < t - t0)) := by
  refine ⟨?_, ?_, ?_, ?_, ?_, ?_⟩
  · intro s t hands hg
    simp [dwellStep, hg]
  · intro t0 t ts hts
    refine ⟨dwellRun_held_within 1500 t0 (by norm_num) ts hts, ?_⟩
    simp only [dwellStep, if_true, Option.getD_some, gt_iff_lt]
    constructor
    · intro h
      by_contra hc
      simp [if_neg hc] at h
    · intro h
      simp [if_pos h]
  · intro s t st v hg
    simp [dwellStep, hg]
  · intro t0 t ts hts
    refine ⟨dwellRun_held_within 2000 t0 (by norm_num) ts hts, ?_⟩
    simp only [dwellStep, if_true, Option.getD_some, gt_iff_lt]
    constructor
    · intro h
      by_contra hc
      simp [if_neg hc] at h
    · intro h
      simp [if_pos h]
  · intro st t
    rfl
  · intro b t0 t ts hts
    refine ⟨buttonRun_held_within b t0 ts hts ⟨none, 0⟩ rfl, ?_⟩
    simp only [buttonDwellStep, ne_eq, Option.some.injEq, not_true_eq_false,
      if_false, gt_iff_lt]
    constructor
    · intro h
      by_contra hc
      simp [if_neg hc] at h
    · intro h
      simp [if_pos h]

/-- Witness for C3: a reset gesture held at 0 ms and 1000 ms has not
fired yet, and a check at 2000 ms fires since 2000 exceeds 1500. -/
theorem dwell_timers_fire_at_thresholds_witness :
    dwellRun 1500 none ((true, 0) :: ([1000] : List ℚ).map fun u => (true, u)) =
      some 0 ∧
    ((dwellStep 1500 true (some 0) 2000).2 = true ↔ (1500 : ℚ) < 2000 - 0) :=
  dwell_timers_fire_at_thresholds.2.1 0 2000 [1000] (by
    intro u hu
    simp at hu
    subst hu
    norm_num)

-- =============================================================
-- Time-slice camera state machine
-- =============================================================

/-- Selection rectangle. -/
structure Rect where
  x : ℚ
  y : ℚ
  w : ℚ
  h : ℚ
deriving Repr, DecidableEq

/-- Linear interpolation used for rect smoothing. -/
def lerp (a b t : ℚ) : ℚ := a + (b - a) * t

/-- The IDLE branch of the onResults state machine: with exactly two
hands both pointing up, enter RESIZING. -/
def idleStep (hands : Option (List (List Landmark)))
    (s : AppState) : AppState :=
  match hands with
  | some hs =>
    if s = AppState.IDLE ∧ hs.length = 2 then
      if isPointingUp (some (lget2 hs 0)) && isPointingUp (some (lget2 hs 1)) then
        AppState.RESIZING
      else s
    else s
  | none => s

/-- Rect smoothing while RESIZING: the raw target spans the two index
tips; the first nonzero assignment is taken directly, later ones are
lerped with factor 0.4. -/
def resizingRectUpdate (p1 p2 : Pt) (r : Rect) : Rect :=
  let tx := min p1.x p2.x
  let ty := min p1.y p2.y
  let tw := |p1.x - p2.x|
  let th := |p1.y - p2.y|
  if r.w = 0 ∧ r.h = 0 then ⟨tx, ty, tw, th⟩
  else ⟨lerp r.x tx (2 / 5), lerp r.y ty (2 / 5),
        lerp r.w tw (2 / 5), lerp r.h th (2 / 5)⟩

/-- Result of the RESIZING branch: next state, smoothed rect, and
whether the frozen frame was captured on this frame. -/
structure ResizeOut where
  state : AppState
  rect : Rect
  captured : Bool
deriving Repr, DecidableEq

/-- The RESIZING branch of the onResults state machine: with two
hands present the rect follows the index tips, and when both hands
pinch the app freezes and captures the frozen frame at that instant. -/
def resizeStep (cW cH iW iH zoom : ℚ)
    (hands : Option (List (List Landmark)))
    (s : AppState) (r : Rect) : ResizeOut :=
  match hands with
  | some hs =>
    if s = AppState.RESIZING ∧ hs.length = 2 then
      let p1 := getScreenCoord cW cH iW iH zoom
        (lget (lget2 hs 0) 8).x (lget (lget2 hs 0) 8).y
      let p2 := getScreenCoord cW cH iW iH zoom
        (lget (lget2 hs 1) 8).x (lget (lget2 hs 1) 8).y
      let r2 := resizingRectUpdate p1 p2 r
      if isPinching (some (lget2 hs 0)) && isPinching (some (lget2 hs 1)) then
        ⟨AppState.FROZEN, r2, true⟩
      else ⟨s, r2, false⟩
    else ⟨s, r, false⟩
  | none => ⟨s, r, false⟩

/-- Both state-machine branches of one onResults frame, in source
order: the IDLE branch runs first and the RESIZING branch observes its
result. -/
def onResultsState (cW cH iW iH zoom : ℚ)
    (hands : Option (List (List Landmark)))
    (s : AppState) (r : Rect) : ResizeOut :=
  resizeStep cW cH iW iH zoom hands (idleStep hands s) r

/-- Persistent state touched by resetSystem. -/
structure SysState where
  state : AppState
  rect : Rect
  mode : EffectMode
  resetStart : Option ℚ
  effectStart : Option ℚ
deriving Repr, DecidableEq

/-- Embedding of resetSystem: back to IDLE, zero rect, NORMAL effect,
cleared dwell references. -/
def resetSystem (s : SysState) : SysState :=
  { s with
    state := AppState.IDLE
    rect := ⟨0, 0, 0, 0⟩
    mode := EffectMode.NORMAL
    resetStart := none
    effectStart := none }

/-- C10: the only state changes of an onResults frame are IDLE to
RESIZING under two pointing hands and RESIZING to FROZEN under two
pinching hands, the frozen frame being captured exactly at the
RESIZING-to-FROZEN instant; FROZEN is absorbing within onResults, so
it is left only through resetSystem, which returns to IDLE with a
zero rect and the NORMAL effect. -/
theorem app_state_machine_transitions :
    (∀ hands s, idleStep hands s ≠ s →
      s = AppState.IDLE ∧ idleStep hands s = AppState.RESIZING ∧
      ∃ hs, hands = some hs ∧ hs.length = 2 ∧
        isPointingUp (some (lget2 hs 0)) = true ∧
        isPointingUp (some (lget2 hs 1)) = true) ∧
    (∀ cW cH iW iH z hands s r,
      (resizeStep cW cH iW iH z hands s r).state ≠ s →
      s = AppState.RESIZING ∧
      (resizeStep cW cH iW iH z hands s r).state = AppState.FROZEN ∧
      ∃ hs, hands = some hs ∧ hs.length = 2 ∧
        isPinching (some (lget2 hs 0)) = true ∧
        isPinching (some (lget2 hs 1)) = true) ∧
    (∀ cW cH iW iH z hands s r,
      (resizeStep cW cH iW iH z hands s r).captured = true ↔
      (s = AppState.RESIZING ∧
       (resizeStep cW cH iW iH z hands s r).state = AppState.FROZEN ∧
       ∃ hs, hands = some hs ∧ hs.length = 2 ∧
         isPinching (some (lget2 hs 0)) = true ∧
         isPinching (some (lget2 hs 1)) = true)) ∧
    (∀ cW cH iW iH z hands r,
      (onResultsState cW cH iW iH z hands AppState.FROZEN r).state =
        AppState.FROZEN) ∧
    (∀ s, (resetSystem s).state = AppState.IDLE ∧
      (resetSystem s).rect = ⟨0, 0, 0, 0⟩ ∧
      (resetSystem s).mode = EffectMode.NORMAL) := by
  have hidle : ∀ hands s, idleStep hands s ≠ s →
      s = AppState.IDLE ∧ idleStep hands s = AppState.RESIZING ∧
      ∃ hs, hands = some hs ∧ hs.length = 2 ∧
        isPointingUp (some (lget2 hs 0)) = true ∧
        isPointingUp (some (lget2 hs 1)) = true := by
    intro hands s hne
    match hands with
    | none => simp [idleStep] at hne
    | some hs =>
      by_cases hcond : s = AppState.IDLE ∧ hs.length = 2
      · rw [idleStep, if_pos hcond] at hne ⊢
        cases hpoint : (isPointingUp (some (lget2 hs 0)) &&
            isPointingUp (some (lget2 hs 1))) with
        | false => rw [if_neg (by simp [hpoint])] at hne; exact absurd rfl hne
        | true =>
          have hp := hpoint
          simp only [Bool.and_eq_true] at hp
          obtain ⟨hp0, hp1⟩ := hp
          exact ⟨hcond.1, by rw [if_pos (by simp [hpoint])],
            hs, rfl, hcond.2, hp0, hp1⟩
      · rw [idleStep, if_neg hcond] at hne
        exact absurd rfl hne
  have hresize : ∀ cW cH iW iH z hands s r,
      ((resizeStep cW cH iW iH z hands s r).state ≠ s ∨
       (resizeStep cW cH iW iH z hands s r).captured = true) →
      s = AppState.RESIZING ∧
      (resizeStep cW cH iW iH z hands s r).state = AppState.FROZEN ∧
      (resizeStep cW cH iW iH z hands s r).captured = true ∧
      ∃ hs, hands = some hs ∧ hs.length = 2 ∧
        isPinching (some (lget2 hs 0)) = true ∧
        isPinching (some (lget2 hs 1)) = true := by
    intro cW cH iW iH z hands s r hne
    match hands with
    | none =>
      rcases hne with hne | hne
      · exact absurd rfl hne
      · exact absurd hne (by simp [resizeStep])
    | some hs =>
      by_cases hcond : s = AppState.RESIZING ∧ hs.length = 2
      · rw [resizeStep, if_pos hcond] at hne ⊢
        cases hpinch : (isPinching (some (lget2 hs 0)) &&
            isPinching (some (lget2 hs 1))) with
        | false =>
          rw [if_neg (by simp [hpinch])] at hne
          rcases hne with hne | hne
          · exact absurd rfl hne
          · exact absurd hne (by simp)
        | true =>
          have hp := hpinch
          simp only [Bool.and_eq_true] at hp
          obtain ⟨hp0, hp1⟩ := hp
          rw [if_pos (by simp [hpinch])]
          exact ⟨hcond.1, rfl, rfl, hs, rfl, hcond.2, hp0, hp1⟩
      · rw [resizeStep, if_neg hcond] at hne
        rcases hne with hne | hne
        · exact absurd rfl hne
        · exact absurd hne (by simp)
  refine ⟨hidle, ?_, ?_, ?_, ?_⟩
  · intro cW cH iW iH z hands s r hne
    have h := hresize cW cH iW iH z hands s r (Or.inl hne)
    exact ⟨h.1, h.2.1, h.2.2.2⟩
  · intro cW cH iW iH z hands s r
    constructor
    · intro hc
      have h := hresize cW cH iW iH z hands s r (Or.inr hc)
      exact ⟨h.1, h.2.1, h.2.2.2⟩
    · rintro ⟨hs, hfrozen, hhs, rfl, hlen, hp0, hp1⟩
      subst hs
      rw [resizeStep, if_pos ⟨rfl, hlen⟩, if_pos (by simp [hp0, hp1])]
  · intro cW cH iW iH z hands r
    have h1 : idleStep hands AppState.FROZEN = AppState.FROZEN := by
      match hands with
      | none => rfl
      | some hs =>
        rw [idleStep, if_neg (by rintro ⟨h, -⟩; exact AppState.noConfusion h)]
    rw [onResultsState, h1]
    match hands with
    | none => rfl
    | some hs =>
      rw [resizeStep, if_neg (by rintro ⟨h, -⟩; exact AppState.noConfusion h)]
  · intro s
    exact ⟨rfl, rfl, rfl⟩

/-- Hand holding all fingertips strictly above their PIP joints: a
pointing-up index with the middle, ring and pinky tips below their
PIPs, built on 21 landmarks. -/
def pointingHand : List Landmark :=
  ((((List.replicate 21 (⟨0, 1, 0⟩ : Landmark)).set 8 ⟨0, 0, 0⟩).set 12
    ⟨0, 2, 0⟩).set 16 ⟨0, 2, 0⟩).set 20 ⟨0, 2, 0⟩

/-- Witness for C10: with two concrete pointing hands the IDLE branch
moves to RESIZING, as the first conjunct of the transition theorem
asserts at that input. -/
theorem app_state_machine_transitions_witness :
    AppState.IDLE = AppState.IDLE ∧
    idleStep (some [pointingHand, pointingHand]) AppState.IDLE =
      AppState.RESIZING ∧
    ∃ hs, (some [pointingHand, pointingHand] :
        Option (List (List Landmark))) = some hs ∧ hs.length = 2 ∧
      isPointingUp (some (lget2 hs 0)) = true ∧
      isPointingUp (some (lget2 hs 1)) = true :=
  app_state_machine_transitions.1 (some [pointingHand, pointingHand])
    AppState.IDLE (by decide)

-- =============================================================
-- Grid-stretch effect
-- =============================================================

/-- Grid resolution of GridStretchManager. -/
def gridN : ℕ := 15

/-- One hand influence: normalized position and pinch radius. -/
structure GridInteraction where
  x : ℚ
  y : ℚ
  radius : ℚ
deriving Repr, DecidableEq

/-- Weight arrays of GridStretchManager. -/
structure GridState where
  currentWeightsX : List ℚ
  currentWeightsY : List ℚ
  targetWeightsX : List ℚ
  targetWeightsY : List ℚ
deriving Repr, DecidableEq

/-- Embedding of GridStretchManager.reset: every weight is 1. -/
def gridReset : GridState :=
  ⟨List.replicate gridN 1, List.replicate gridN 1,
   List.replicate gridN 1, List.replicate gridN 1⟩

/-- The inner loop of GridStretchManager.update for one axis: cell i
at normalized index i/(n-1) receives the additive Gaussian influence
intensity * e(-(dist*spread)^2), where e stands for Math.exp. -/
def applyInfluenceAxis (e : ℚ → ℚ) (intensity spread snapped : ℚ) :
    ℕ → List ℚ → List ℚ
  | _, [] => []
  | i, w :: ws =>
    (w + intensity *
      e (-((|(i : ℚ) / ((gridN : ℚ) - 1) - snapped| * spread) ^ 2))) ::
    applyInfluenceAxis e intensity spread snapped (i + 1) ws

/-- Embedding of GridStretchManager.update, with the exponential
abstracted as e (every value Math.exp returns is nonnegative, which
is all the invariants use): targets restart from the baseline 1, each
interaction adds its snapped Gaussian influence with intensity
max 0 ((radius - 0.03) * 50), and the current weights are lerped 12
percent of the way to the targets. -/
def gridUpdate (e : ℚ → ℚ) (interactions : List GridInteraction)
    (s : GridState) : GridState :=
  let t0 : List ℚ := List.replicate gridN 1
  let tXY := interactions.foldl (fun (acc : List ℚ × List ℚ) p =>
    let gridIdxX := round (p.x * ((gridN : ℚ) - 1))
    let gridIdxY := round (p.y * ((gridN : ℚ) - 1))
    let snappedX := (gridIdxX : ℚ) / ((gridN : ℚ) - 1)
    let snappedY := (gridIdxY : ℚ) / ((gridN : ℚ) - 1)
    let spread := max (1 / 2) (15 * (1 - min (p.radius * 3) (9 / 10)))
    let intensity := max 0 ((p.radius - 3 / 100) * 50)
    (applyInfluenceAxis e intensity spread snappedX 0 acc.1,
     applyInfluenceAxis e intensity spread snappedY 0 acc.2)) (t0, t0)
  { currentWeightsX :=
      List.zipWith (fun c t => c + (t - c) * (3 / 25)) s.currentWeightsX tXY.1
    currentWeightsY :=
      List.zipWith (fun c t => c + (t - c) * (3 / 25)) s.currentWeightsY tXY.2
    targetWeightsX := tXY.1
    targetWeightsY := tXY.2 }

/-- Destination column widths of GridStretchManager.draw: the rect
width divided by the total weight, scaled per cell weight. -/
def gridColWidths (weights : List ℚ) (rectW : ℚ) : List ℚ :=
  let unitW := rectW / weights.sum
  weights.map fun w => w * unitW

/-- Helper: the additive influence keeps every entry at least 1 when
the intensity and the abstracted exponential are nonnegative. -/
theorem applyInfluenceAxis_ge_one (e : ℚ → ℚ) (he : ∀ x, 0 ≤ e x)
    (intensity spread snapped : ℚ) (h0 : 0 ≤ intensity) :
    ∀ (i : ℕ) (ws : List ℚ), (∀ w ∈ ws, 1 ≤ w) →
    ∀ w ∈ applyInfluenceAxis e intensity spread snapped i ws, 1 ≤ w := by
  intro i ws
  induction ws generalizing i with
  | nil => intro _ w hw; simp [applyInfluenceAxis] at hw
  | cons a as ih =>
    intro hall w hw
    simp only [applyInfluenceAxis, List.mem_cons] at hw
    rcases hw with rfl | hw
    · have ha : 1 ≤ a := hall a (by simp)
      have : 0 ≤ intensity * e (-((|(i : ℚ) / ((gridN : ℚ) - 1) - snapped| *
          spread) ^ 2)) := mul_nonneg h0 (he _)
      linarith
    · exact ih (i + 1) (fun v hv => hall v (by simp [hv])) w hw

/-- Helper: both target arrays of the interaction fold stay at least
1 entrywise. -/
theorem gridTargets_ge_one (e : ℚ → ℚ) (he : ∀ x, 0 ≤ e x)
    (interactions : List GridInteraction) (acc : List ℚ × List ℚ)
    (h1 : ∀ w ∈ acc.1, 1 ≤ w) (h2 : ∀ w ∈ acc.2, 1 ≤ w) :
    (∀ w ∈ (interactions.foldl (fun (acc : List ℚ × List ℚ) p =>
      let gridIdxX := round (p.x * ((gridN : ℚ) - 1))
      let gridIdxY := round (p.y * ((gridN : ℚ) - 1))
      let snappedX := (gridIdxX : ℚ) / ((gridN : ℚ) - 1)
      let snappedY := (gridIdxY : ℚ) / ((gridN : ℚ) - 1)
      let spread := max (1 / 2) (15 * (1 - min (p.radius * 3) (9 / 10)))
      let intensity := max 0 ((p.radius - 3 / 100) * 50)
      (applyInfluenceAxis e intensity spread snappedX 0 acc.1,
       applyInfluenceAxis e intensity spread snappedY 0 acc.2)) acc).1, 1 ≤ w) ∧
    (∀ w ∈ (interactions.foldl (fun (acc : List ℚ × List ℚ) p =>
      let gridIdxX := round (p.x * ((gridN : ℚ) - 1))
      let gridIdxY := round (p.y * ((gridN : ℚ) - 1))
      let snappedX := (gridIdxX : ℚ) / ((gridN : ℚ) - 1)
      let snappedY := (gridIdxY : ℚ) / ((gridN : ℚ) - 1)
      let spread := max (1 / 2) (15 * (1 - min (p.radius * 3) (9 / 10)))
      let intensity := max 0 ((p.radius - 3 / 100) * 50)
      (applyInfluenceAxis e intensity spread snappedX 0 acc.1,
       applyInfluenceAxis e intensity spread snappedY 0 acc.2)) acc).2, 1 ≤ w) := by
  induction interactions generalizing acc with
  | nil => exact ⟨h1, h2⟩
  | cons p ps ih =>
    simp only [List.foldl_cons]
    exact ih _
      (applyInfluenceAxis_ge_one e he _ _ _ (le_max_left 0 _) 0 acc.1 h1)
      (applyInfluenceAxis_ge_one e he _ _ _ (le_max_left 0 _) 0 acc.2 h2)

/-- Helper: every element of the smoothing zipWith of two arrays that
are entrywise at least 1 is at least 1. -/
theorem zipWith_lerp_ge_one (cs ts : List ℚ) (hc : ∀ w ∈ cs, 1 ≤ w)
    (ht : ∀ w ∈ ts, 1 ≤ w) :
    ∀ w ∈ List.zipWith (fun c t => c + (t - c) * (3 / 25)) cs ts, 1 ≤ w := by
  induction cs generalizing ts with
  | nil => intro w hw; simp at hw
  | cons c cs ih =>
    intro w hw
    cases ts with
    | nil => simp at hw
    | cons t ts =>
      simp only [List.zipWith_cons_cons, List.mem_cons] at hw
      rcases hw with rfl | hw
      · have h1 : 1 ≤ c := hc c (by simp)
        have h2 : 1 ≤ t := ht t (by simp)
        nlinarith
      · exact ih ts (fun v hv => hc v (by simp [hv]))
          (fun v hv => ht v (by simp [hv])) w hw

/-- Helper: a list of entries at least 1 sums to at least its length. -/
theorem sum_ge_length (ws : List ℚ) (h : ∀ w ∈ ws, 1 ≤ w) :
    (ws.length : ℚ) ≤ ws.sum := by
  induction ws with
  | nil => simp
  | cons w ws ih =>
    have h1 : 1 ≤ w := h w (by simp)
    have h2 := ih (fun v hv => h v (by simp [hv]))
    simp only [List.length_cons, List.sum_cons]
    push_cast
    linarith

/-- Helper: multiplying each entry by a constant scales the sum. -/
theorem sum_map_mul (l : List ℚ) (c : ℚ) :
    (l.map fun w => w * c).sum = l.sum * c := by
  induction l with
  | nil => simp
  | cons w ws ih => simp [List.sum_cons, add_mul, ih]

/-- C7: after reset every grid weight is 1; update never drops a
target weight below the baseline 1 since the Gaussian influence it
adds has nonnegative intensity and a nonnegative exponential factor;
the smoothed current weights therefore also stay at least 1; and the
drawn column widths, obtained by dividing the rect width by the total
weight, sum exactly to the rect width (draw additionally clips all
cells to the rect). -/
theorem grid_stretch_stays_in_rect :
    (gridReset.currentWeightsX = List.replicate gridN 1 ∧
     gridReset.currentWeightsY = List.replicate gridN 1 ∧
     gridReset.targetWeightsX = List.replicate gridN 1 ∧
     gridReset.targetWeightsY = List.replicate gridN 1) ∧
    (∀ (e : ℚ → ℚ), (∀ x, 0 ≤ e x) →
      ∀ (ints : List GridInteraction) (s : GridState),
      (∀ w ∈ (gridUpdate e ints s).targetWeightsX, 1 ≤ w) ∧
      (∀ w ∈ (gridUpdate e ints s).targetWeightsY, 1 ≤ w)) ∧
    (∀ (e : ℚ → ℚ), (∀ x, 0 ≤ e x) →
      ∀ (ints : List GridInteraction) (s : GridState),
      (∀ w ∈ s.currentWeightsX, 1 ≤ w) →
      (∀ w ∈ s.currentWeightsY, 1 ≤ w) →
      (∀ w ∈ (gridUpdate e ints s).currentWeightsX, 1 ≤ w) ∧
      (∀ w ∈ (gridUpdate e ints s).currentWeightsY, 1 ≤ w)) ∧
    (∀ (ws : List ℚ) (rectW : ℚ), (∀ w ∈ ws, 1 ≤ w) → ws ≠ [] →
      (gridColWidths ws rectW).sum = rectW) := by
  have hrepl : ∀ w ∈ (List.replicate gridN (1 : ℚ)), 1 ≤ w := by
    intro w hw
    rcases List.eq_of_mem_replicate hw with rfl
    exact le_refl 1
  have htargets : ∀ (e : ℚ → ℚ), (∀ x, 0 ≤ e x) →
      ∀ (ints : List GridInteraction) (s : GridState),
      (∀ w ∈ (gridUpdate e ints s).targetWeightsX, 1 ≤ w) ∧
      (∀ w ∈ (gridUpdate e ints s).targetWeightsY, 1 ≤ w) := by
    intro e he ints s
    have h := gridTargets_ge_one e he ints
      (List.replicate gridN 1, List.replicate gridN 1) hrepl hrepl
    exact ⟨h.1, h.2⟩
  refine ⟨⟨rfl, rfl, rfl, rfl⟩, htargets, ?_, ?_⟩
  · intro e he ints s hcx hcy
    have h := gridTargets_ge_one e he ints
      (List.replicate gridN 1, List.replicate gridN 1) hrepl hrepl
    exact ⟨zipWith_lerp_ge_one _ _ hcx h.1, zipWith_lerp_ge_one _ _ hcy h.2⟩
  · intro ws rectW hws hne
    have hlen : 1 ≤ (ws.length : ℚ) := by
      have : 1 ≤ ws.length := List.length_pos.mpr hne
      exact_mod_cast this
    have hsum : (0 : ℚ) < ws.sum := lt_of_lt_of_le (by linarith)
      (sum_ge_length ws hws)
    calc (gridColWidths ws rectW).sum
        = ws.sum * (rectW / ws.sum) := sum_map_mul ws (rectW / ws.sum)
      _ = rectW := by
          rw [mul_comm, div_mul_cancel₀ _ (ne_of_gt hsum)]

/-- Witness for C7 at concrete inputs. -/
theorem grid_stretch_stays_in_rect_witness :
    (gridColWidths [1, 1] 7).sum = 7 :=
  grid_stretch_stays_in_rect.2.2.2 [1, 1] 7 (by decide) (by decide)

-- =============================================================
-- Tear-drop physics (matter-js beforeUpdate handler)
-- =============================================================

/-- Lifecycle states of a tear body. -/
inductive TearState where
  | sliding
  | falling
  | rewinding
deriving Repr, DecidableEq

/-- The tear body fields the beforeUpdate handler reads or writes. -/
structure TearBody where
  pos : Pt
  vel : Pt
  angVel : ℚ
  force : Pt
  progress : ℚ
  pathOffset : ℚ
  isLeft : Bool
  state : TearState
  isSensor : Bool
  rewindStartTime : Option ℚ
  origin : Option Pt
  restitution : ℚ
deriving Repr, DecidableEq

/-- Canvas, video and zoom parameters of the coordinate mapper. -/
structure MapParams where
  cW : ℚ
  cH : ℚ
  vW : ℚ
  vH : ℚ
  zoom : ℚ
deriving Repr, DecidableEq

/-- Landmark mapped to screen space; the tear app always mirrors. -/
def mapLm (mp : MapParams) (l : Landmark) : Pt :=
  getMappedCoords mp.cW mp.cH mp.vW mp.vH mp.zoom l.x l.y true

/-- Quadratic Bezier interpolation as the specification words it. -/
def quadBezier (p0 p1 p2 : Pt) (t : ℚ) : Pt :=
  ⟨(1 - t) ^ 2 * p0.x + 2 * (1 - t) * t * p1.x + t ^ 2 * p2.x,
   (1 - t) ^ 2 * p0.y + 2 * (1 - t) * t * p1.y + t ^ 2 * p2.y⟩

/-- The sliding branch of the beforeUpdate handler.  With the camera
on and the three face landmarks present the body is placed on the
quadratic Bezier through the mapped eye, cheek and drop landmarks at
its current progress, offset in x; the progress then advances by
0.01 + t * 0.03 and on reaching 1.0 the body starts falling with a
randomized velocity (r1, r2 stand for the two Math.random draws).
Otherwise the body falls back to the falling state. -/
def tearSlidingStep (mp : MapParams) (camOn : Bool)
    (face : Option (List Landmark)) (r1 r2 : ℚ) (b : TearBody) : TearBody :=
  match camOn, face with
  | true, some f =>
    match f.get? (if b.isLeft then 145 else 374),
        f.get? (if b.isLeft then 205 else 425),
        f.get? (if b.isLeft then 136 else 365) with
    | some q0, some q1, some q2 =>
      let p0 := mapLm mp q0
      let p1 := mapLm mp q1
      let p2 := mapLm mp q2
      let t := b.progress
      let it := 1 - t
      let bx := it * it * p0.x + 2 * it * t * p1.x + t * t * p2.x
      let by2 := it * it * p0.y + 2 * it * t * p1.y + t * t * p2.y
      let newProgress := b.progress + (1 / 100 + t * (3 / 100))
      if newProgress ≥ 1 then
        { b with
          pos := ⟨bx + b.pathOffset, by2⟩
          vel := ⟨(r1 - 1 / 2) * 2, 5 + r2 * 2⟩
          angVel := 0
          progress := newProgress
          state := TearState.falling
          isSensor := false }
      else
        { b with
          pos := ⟨bx + b.pathOffset, by2⟩
          vel := ⟨0, 0⟩
          angVel := 0
          progress := newProgress }
    | _, _, _ => { b with state := TearState.falling, isSensor := false }
  | _, _ => { b with state := TearState.falling, isSensor := false }

/-- One repulsion point applied to a falling body: inside the 100 px
radius (squared distance below 10000) a force of magnitude 0.005 is
accumulated along the separation direction; sqrtFn stands for
Math.sqrt. -/
def applyRepulsion (sqrtFn : ℚ → ℚ) (pt : Pt) (b : TearBody) : TearBody :=
  let dx := b.pos.x - pt.x
  let dy := b.pos.y - pt.y
  let distSq := dx * dx + dy * dy
  if distSq < 10000 ∧ distSq > 0 then
    { b with force := ⟨b.force.x + dx / sqrtFn distSq * (1 / 200),
                       b.force.y + dy / sqrtFn distSq * (1 / 200)⟩ }
  else b

/-- The falling branch: all repulsion points are applied in order. -/
def tearFallingStep (sqrtFn : ℚ → ℚ) (pts : List Pt) (b : TearBody) :
    TearBody :=
  pts.foldl (fun b pt => applyRepulsion sqrtFn pt b) b

/-- Core of the rewinding branch once past the start-delay: on the
face path the body either flies to the chin (progress at 1) or slides
back toward the eye, being removed when progress reaches 0; off the
path it flies back to its spawn origin and is removed on arrival or
when no origin exists.  none models removal from the world. -/
def tearRewindCore (mp : MapParams) (sqrtFn : ℚ → ℚ) (speed : ℚ)
    (camOn : Bool) (face : Option (List Landmark)) (b : TearBody) :
    Option TearBody :=
  let onPath :=
    match camOn, face with
    | true, some f =>
      match f.get? (if b.isLeft then 145 else 374),
          f.get? (if b.isLeft then 205 else 425),
          f.get? (if b.isLeft then 136 else 365) with
      | some q0, some q1, some q2 => some (q0, q1, q2)
      | _, _, _ => none
    | _, _ => none
  match onPath with
  | some (q0, q1, q2) =>
    let p0 := mapLm mp q0
    let p1 := mapLm mp q1
    let p2 := mapLm mp q2
    if b.progress ≥ 1 then
      let dx := p2.x + b.pathOffset - b.pos.x
      let dy := p2.y - b.pos.y
      let dist := sqrtFn (dx * dx + dy * dy)
      let flySpeed := speed * 20
      if dist < flySpeed * (3 / 2) then some { b with progress := 99 / 100 }
      else some { b with
        vel := ⟨dx / dist * flySpeed, dy / dist * flySpeed⟩
        angVel := 0 }
    else
      let newProgress := b.progress - 1 / 25 * speed
      if newProgress ≤ 0 then none
      else
        let t := newProgress
        let it := 1 - t
        let bx := it * it * p0.x + 2 * it * t * p1.x + t * t * p2.x
        let by2 := it * it * p0.y + 2 * it * t * p1.y + t * t * p2.y
        some { b with
          progress := newProgress
          pos := ⟨bx + b.pathOffset, by2⟩
          vel := ⟨0, 0⟩
          angVel := 0 }
  | none =>
    match b.origin with
    | some o =>
      let dx := o.x - b.pos.x
      let dy := o.y - b.pos.y
      let dist := sqrtFn (dx * dx + dy * dy)
      let flySpeed := speed * 25
      if dist < flySpeed then none
      else some { b with
        vel := ⟨dx / dist * flySpeed, dy / dist * flySpeed⟩
        angVel := 0 }
    | none => none

/-- One full beforeUpdate pass over a single body, in source order:
restitution refresh, the rewinding branch with its start delay, then
the sliding branch, then the falling repulsion (a body that starts
falling this frame is repelled this same frame). -/
def tearBodyStep (mp : MapParams) (sqrtFn : ℚ → ℚ) (speed bounce : ℚ)
    (camOn : Bool) (face : Option (List Landmark)) (pts : List Pt)
    (now r1 r2 : ℚ) (b0 : TearBody) : Option TearBody :=
  let b := { b0 with restitution := bounce }
  if b.state = TearState.rewinding then
    match b.rewindStartTime with
    | some t0 =>
      if now < t0 then some { b with vel := ⟨0, 0⟩, angVel := 0 }
      else tearRewindCore mp sqrtFn speed camOn face b
    | none => tearRewindCore mp sqrtFn speed camOn face b
  else
    let b1 := if b.state = TearState.sliding then
      tearSlidingStep mp camOn face r1 r2 b else b
    let b2 := if b1.state = TearState.falling then
      tearFallingStep sqrtFn pts b1 else b1
    some b2

/-- Repulsion points of a frame: the mouse position plus, with the
camera on, every mapped index tip of the stored hands. -/
def repulsionPts (mp : MapParams) (mousePos : Pt) (camOn : Bool)
    (hands : Option (List (List Landmark))) : List Pt :=
  mousePos :: (match camOn, hands with
  | true, some hs => hs.filterMap fun hand => (hand.get? 8).map (mapLm mp)
  | _, _ => [])

/-- Helper: the repulsion fold touches only the accumulated force. -/
theorem tearFallingStep_preserves (sqrtFn : ℚ → ℚ) (pts : List Pt)
    (b : TearBody) :
    (tearFallingStep sqrtFn pts b).state = b.state ∧
    (tearFallingStep sqrtFn pts b).isSensor = b.isSensor := by
  induction pts generalizing b with
  | nil => exact ⟨rfl, rfl⟩
  | cons p ps ih =>
    have hone : (applyRepulsion sqrtFn p b).state = b.state ∧
        (applyRepulsion sqrtFn p b).isSensor = b.isSensor := by
      rw [applyRepulsion]
      split <;> exact ⟨rfl, rfl⟩
    have htail := ih (applyRepulsion sqrtFn p b)
    exact ⟨htail.1.trans hone.1, htail.2.trans hone.2⟩

/-- C6: while sliding with the face present, the frame places the body
at the quadratic Bezier of the mapped eye, cheek and drop landmarks
at its current progress, shifted by its fixed x path offset; the
progress advances by 0.01 + t * 0.03 and the body switches to falling
exactly when the advanced progress reaches 1.0. -/
theorem tear_sliding_follows_bezier (mp : MapParams) (f : List Landmark)
    (r1 r2 : ℚ) (b : TearBody) (q0 q1 q2 : Landmark)
    (hb : b.state = TearState.sliding)
    (h0 : f.get? (if b.isLeft then 145 else 374) = some q0)
    (h1 : f.get? (if b.isLeft then 205 else 425) = some q1)
    (h2 : f.get? (if b.isLeft then 136 else 365) = some q2) :
    (tearSlidingStep mp true (some f) r1 r2 b).pos =
      ⟨(quadBezier (mapLm mp q0) (mapLm mp q1) (mapLm mp q2) b.progress).x +
        b.pathOffset,
       (quadBezier (mapLm mp q0) (mapLm mp q1) (mapLm mp q2) b.progress).y⟩ ∧
    (tearSlidingStep mp true (some f) r1 r2 b).progress =
      b.progress + (1 / 100 + b.progress * (3 / 100)) ∧
    ((tearSlidingStep mp true (some f) r1 r2 b).state = TearState.falling ↔
      1 ≤ b.progress + (1 / 100 + b.progress * (3 / 100))) := by
  simp only [tearSlidingStep, h0, h1, h2]
  by_cases hge : b.progress + (1 / 100 + b.progress * (3 / 100)) ≥ 1
  · rw [if_pos hge]
    refine ⟨?_, rfl, iff_of_true rfl (by linarith)⟩
    simp only [quadBezier, Pt.mk.injEq]
    constructor <;> ring
  · rw [if_neg hge]
    refine ⟨?_, rfl, ?_⟩
    · simp only [quadBezier, Pt.mk.injEq]
      constructor <;> ring
    · simp only [hb]
      constructor
      · intro h
        exact absurd h (by decide)
      · intro h
        exact absurd h hge

/-- Concrete sliding body for the witnesses. -/
def witnessBody : TearBody :=
  ⟨⟨0, 0⟩, ⟨0, 0⟩, 0, ⟨0, 0⟩, 0, 0, true, TearState.sliding, true,
    none, some ⟨0, 0⟩, 0⟩

/-- Concrete face landmark list long enough for every used index. -/
def witnessFace : List Landmark := List.replicate 426 ⟨0, 0, 0⟩

/-- Witness for C6 at concrete inputs. -/
theorem tear_sliding_follows_bezier_witness :
    (tearSlidingStep ⟨1, 1, 1, 1, 1⟩ true (some witnessFace) 0 0
      witnessBody).pos =
      ⟨(quadBezier (mapLm ⟨1, 1, 1, 1, 1⟩ ⟨0, 0, 0⟩)
          (mapLm ⟨1, 1, 1, 1, 1⟩ ⟨0, 0, 0⟩)
          (mapLm ⟨1, 1, 1, 1, 1⟩ ⟨0, 0, 0⟩) witnessBody.progress).x +
        witnessBody.pathOffset,
       (quadBezier (mapLm ⟨1, 1, 1, 1, 1⟩ ⟨0, 0, 0⟩)
          (mapLm ⟨1, 1, 1, 1, 1⟩ ⟨0, 0, 0⟩)
          (mapLm ⟨1, 1, 1, 1, 1⟩ ⟨0, 0, 0⟩) witnessBody.progress).y⟩ ∧
    (tearSlidingStep ⟨1, 1, 1, 1, 1⟩ true (some witnessFace) 0 0
      witnessBody).progress =
      witnessBody.progress + (1 / 100 + witnessBody.progress * (3 / 100)) ∧
    ((tearSlidingStep ⟨1, 1, 1, 1, 1⟩ true (some witnessFace) 0 0
      witnessBody).state = TearState.falling ↔
      1 ≤ witnessBody.progress + (1 / 100 + witnessBody.progress * (3 / 100))) :=
  tear_sliding_follows_bezier ⟨1, 1, 1, 1, 1⟩ witnessFace 0 0 witnessBody
    ⟨0, 0, 0⟩ ⟨0, 0, 0⟩ ⟨0, 0, 0⟩ rfl rfl rfl rfl

-- =============================================================
-- Santa puppet auto-pilot
-- =============================================================

/-- Control modes of a puppet horse. -/
inductive PuppetMode where
  | AUTO
  | PUPPET
deriving Repr, DecidableEq

/-- Embedding of BezierPath.getPoint: the cubic Bezier through the
four stored control points; fewer than four points yield the origin. -/
def bezierGetPoint (points : List Pt) (t : ℚ) : Pt :=
  if points.length < 4 then ⟨0, 0⟩
  else
    let p0 := points.getD 0 ⟨0, 0⟩
    let p1 := points.getD 1 ⟨0, 0⟩
    let p2 := points.getD 2 ⟨0, 0⟩
    let p3 := points.getD 3 ⟨0, 0⟩
    let it := 1 - t
    ⟨it ^ 3 * p0.x + 3 * it ^ 2 * t * p1.x + 3 * it * t ^ 2 * p2.x +
      t ^ 3 * p3.x,
     it ^ 3 * p0.y + 3 * it ^ 2 * t * p1.y + 3 * it * t ^ 2 * p2.y +
      t ^ 3 * p3.y⟩

/-- Path progress and current path of the santa walker. -/
structure SantaCtl where
  progress : ℚ
  path : List Pt
deriving Repr, DecidableEq

/-- Output of one santa logic frame: the mode each horse is updated
with and the advanced auto-pilot control state. -/
structure SantaFrameOut where
  mode1 : PuppetMode
  mode2 : PuppetMode
  ctl : SantaCtl
deriving Repr, DecidableEq

/-- Embedding of the SANTA_WALKER frame logic: each horse is driven
in PUPPET mode by its hand when present, otherwise in AUTO mode; with
no first hand the path progress advances by 0.002, wrapping to 0 with
a freshly generated random path (freshPath models the random
generate call). -/
def santaFrame (activeHands : List (List Landmark)) (ctl : SantaCtl)
    (freshPath : List Pt) : SantaFrameOut :=
  let hand1 := activeHands.get? 0
  let hand2 := activeHands.get? 1
  let ctl2 :=
    if hand1.isNone then
      let p := ctl.progress + 1 / 500
      if p > 1 then (⟨0, freshPath⟩ : SantaCtl) else ⟨p, ctl.path⟩
    else ctl
  ⟨if hand1.isSome then PuppetMode.PUPPET else PuppetMode.AUTO,
   if hand2.isSome then PuppetMode.PUPPET else PuppetMode.AUTO,
   ctl2⟩

/-- Base body anchor of the horse SantaPuppet.update in AUTO mode
(santaUtils of the time-slice camera): the path point at the current
progress offset into the rect, flipped about the rect center when
mirrorAuto is set (horse 2), standing at floorY minus the stand
height legUpperLength + legLowerLength + bodyHeight / 2
= 25 + 25 + 30 / 2 = 65; the time-driven sine bounce is a further
offset from this anchor. -/
def santaAutoBase (path : List Pt) (progress : ℚ) (r : Rect)
    (mirrorAuto : Bool) : Pt :=
  let floorY := r.y + r.h
  let standHeight := (25 : ℚ) + 25 + 30 / 2
  let pathPos := bezierGetPoint path progress
  let targetX0 := r.x + pathPos.x
  let targetX :=
    if mirrorAuto then
      let centerX := r.x + r.w / 2
      centerX - (targetX0 - centerX)
    else targetX0
  ⟨targetX, floorY - standHeight⟩

/-- C4: missing landmarks only idle the effects.  A sliding tear body
with the camera off or no stored face landmarks switches to plain
falling physics with its sensor flag cleared (and is not removed),
and a SANTA_WALKER frame with no controlling hands updates both
horses in AUTO mode, advancing along the autogenerated Bezier path:
horse 1 is anchored at the path point 65 px above the rect floor and
horse 2 at the same anchor mirrored about the rect center. -/
theorem missing_landmarks_fall_back :
    (∀ (mp : MapParams) (sqrtFn : ℚ → ℚ) (speed bounce : ℚ)
      (camOn : Bool) (face : Option (List Landmark)) (pts : List Pt)
      (now r1 r2 : ℚ) (b : TearBody),
      b.state = TearState.sliding → (camOn = false ∨ face = none) →
      ∃ b2, tearBodyStep mp sqrtFn speed bounce camOn face pts now r1 r2 b =
        some b2 ∧ b2.state = TearState.falling ∧ b2.isSensor = false) ∧
    (∀ (ctl : SantaCtl) (freshPath : List Pt) (r : Rect),
      (santaFrame [] ctl freshPath).mode1 = PuppetMode.AUTO ∧
      (santaFrame [] ctl freshPath).mode2 = PuppetMode.AUTO ∧
      (santaFrame [] ctl freshPath).ctl =
        (if ctl.progress + 1 / 500 > 1 then (⟨0, freshPath⟩ : SantaCtl)
         else ⟨ctl.progress + 1 / 500, ctl.path⟩) ∧
      santaAutoBase ctl.path ctl.progress r false =
        ⟨r.x + (bezierGetPoint ctl.path ctl.progress).x,
         r.y + r.h - 65⟩ ∧
      santaAutoBase ctl.path ctl.progress r true =
        ⟨(r.x + r.w / 2) -
          (r.x + (bezierGetPoint ctl.path ctl.progress).x -
            (r.x + r.w / 2)),
         r.y + r.h - 65⟩) := by
  constructor
  · intro mp sqrtFn speed bounce camOn face pts now r1 r2 b hb hcf
    obtain ⟨bp, bv, ba, bf, bpr, bpo, bil, bst, bis, brt, bor, bre⟩ := b
    simp only at hb
    subst hb
    rcases hcf with rfl | rfl
    · exact ⟨tearFallingStep sqrtFn pts
        ⟨bp, bv, ba, bf, bpr, bpo, bil, TearState.falling, false, brt, bor,
          bounce⟩, rfl,
        (tearFallingStep_preserves sqrtFn pts _).1,
        (tearFallingStep_preserves sqrtFn pts _).2⟩
    · cases camOn with
      | false => exact ⟨tearFallingStep sqrtFn pts
          ⟨bp, bv, ba, bf, bpr, bpo, bil, TearState.falling, false, brt, bor,
            bounce⟩, rfl,
          (tearFallingStep_preserves sqrtFn pts _).1,
          (tearFallingStep_preserves sqrtFn pts _).2⟩
      | true => exact ⟨tearFallingStep sqrtFn pts
          ⟨bp, bv, ba, bf, bpr, bpo, bil, TearState.falling, false, brt, bor,
            bounce⟩, rfl,
          (tearFallingStep_preserves sqrtFn pts _).1,
          (tearFallingStep_preserves sqrtFn pts _).2⟩
  · intro ctl freshPath r
    refine ⟨rfl, rfl, rfl, ?_, ?_⟩
    · simp only [santaAutoBase, Pt.mk.injEq]
      exact ⟨rfl, by norm_num⟩
    · simp only [santaAutoBase, Pt.mk.injEq]
      exact ⟨rfl, by norm_num⟩

/-- Witness for C4: a concrete sliding body with the camera off falls. -/
theorem missing_landmarks_fall_back_witness :
    ∃ b2, tearBodyStep ⟨1, 1, 1, 1, 1⟩ (fun x => x) 1 0 false none [] 0 0 0
      witnessBody = some b2 ∧
      b2.state = TearState.falling ∧ b2.isSensor = false :=
  missing_landmarks_fall_back.1 ⟨1, 1, 1, 1, 1⟩ (fun x => x) 1 0 false none
    [] 0 0 0 witnessBody rfl (Or.inl rfl)

-- =============================================================
-- Detector callbacks versus render frames (staleness discipline)
-- =============================================================

/-- A freshly spawned tear: circle at the spawn position, sliding and
a sensor while the camera is on, otherwise already falling, with its
origin remembered for rewinding. -/
def newTearBody (pos : Pt) (camOn : Bool) (side : Bool)
    (bounce pathOff : ℚ) : TearBody :=
  ⟨pos, ⟨0, 0⟩, 0, ⟨0, 0⟩, 0, pathOff, side,
   if camOn then TearState.sliding else TearState.falling,
   camOn, none, some pos, bounce⟩

/-- Parameters of a render frame that are fixed by refs and settings
rather than by the detector. -/
structure RenderParams where
  mp : MapParams
  sqrtFn : ℚ → ℚ
  speed : ℚ
  bounce : ℚ
  camOn : Bool
  mousePos : Pt
  winW : ℚ

/-- Closure state of the tear app: the two landmark refs written only
by the detector callbacks, plus the physics world consumed and
updated by every render frame. -/
structure TearSim where
  face : Option (List Landmark)
  hands : Option (List (List Landmark))
  bodies : List TearBody
  textQueue : List ℕ
  lastSpawnTime : ℚ

/-- Spawning logic of beforeUpdate: every 35 ms one queued character
spawns at the mapped eye landmark of the randomly chosen side (or
above the window center with the camera off); with the camera on but
no face stored nothing spawns.  side, rOff and rx model the random
draws. -/
def spawnStep (p : RenderParams) (face : Option (List Landmark))
    (now : ℚ) (side : Bool) (rOff rx : ℚ)
    (bodies : List TearBody) (queue : List ℕ) (lastSpawn : ℚ) :
    List TearBody × List ℕ × ℚ :=
  if queue ≠ [] ∧ now - lastSpawn > 35 then
    let spawnPos :=
      if p.camOn then
        match face with
        | some f => (f.get? (if side then 145 else 374)).map (mapLm p.mp)
        | none => none
      else some ⟨p.winW / 2 + (rx - 1 / 2) * 200, -50⟩
    match spawnPos with
    | some pos =>
      (bodies ++ [newTearBody pos p.camOn side p.bounce ((rOff - 1 / 2) * 10)],
       queue.drop 1, now)
    | none => (bodies, queue, lastSpawn)
  else (bodies, queue, lastSpawn)

/-- One render/physics frame (the beforeUpdate handler): body updates
against the stored landmarks, then spawning.  The landmark refs are
only read. -/
def tearRender (p : RenderParams) (now r1 r2 rOff rx : ℚ) (side : Bool)
    (s : TearSim) : TearSim :=
  let pts := repulsionPts p.mp p.mousePos p.camOn s.hands
  let bodies2 := s.bodies.filterMap
    (tearBodyStep p.mp p.sqrtFn p.speed p.bounce p.camOn s.face pts now r1 r2)
  let out := spawnStep p s.face now side rOff rx bodies2 s.textQueue
    s.lastSpawnTime
  { s with
    bodies := out.1
    textQueue := out.2.1
    lastSpawnTime := out.2.2 }

/-- Decoding of a FaceMesh result set: the first detected face, or a
cleared ref. -/
def decodeFace (r : Option (List (List Landmark))) :
    Option (List Landmark) :=
  match r with
  | some (f :: _) => some f
  | _ => none

/-- Decoding of a Hands result set: the whole nonempty list, or a
cleared ref. -/
def decodeHands (r : Option (List (List Landmark))) :
    Option (List (List Landmark)) :=
  match r with
  | some (h :: t) => some (h :: t)
  | _ => none

/-- The three asynchronous events of the tear app loop. -/
inductive SimEvent where
  | faceResults (r : Option (List (List Landmark)))
  | handResults (r : Option (List (List Landmark)))
  | renderFrame (now r1 r2 rOff rx : ℚ) (side : Bool)

/-- Effect of one event on the closure state: detector callbacks
overwrite exactly their landmark ref; a render frame runs the physics
against the stored refs. -/
def applyEvent (p : RenderParams) (s : TearSim) : SimEvent → TearSim
  | SimEvent.faceResults r => { s with face := decodeFace r }
  | SimEvent.handResults r => { s with hands := decodeHands r }
  | SimEvent.renderFrame now r1 r2 rOff rx side =>
    tearRender p now r1 r2 rOff rx side s

/-- An interleaved trace of callbacks and render frames. -/
def runEvents (p : RenderParams) (s : TearSim) (evs : List SimEvent) :
    TearSim :=
  evs.foldl (applyEvent p) s

/-- The face ref value determined by the callbacks of a trace alone. -/
def lastFaceWrite (evs : List SimEvent) (init : Option (List Landmark)) :
    Option (List Landmark) :=
  evs.foldl (fun acc e =>
    match e with
    | SimEvent.faceResults r => decodeFace r
    | _ => acc) init

/-- The hands ref value determined by the callbacks of a trace alone. -/
def lastHandsWrite (evs : List SimEvent)
    (init : Option (List (List Landmark))) :
    Option (List (List Landmark)) :=
  evs.foldl (fun acc e =>
    match e with
    | SimEvent.handResults r => decodeHands r
    | _ => acc) init

/-- C5: detector callbacks and render frames are decoupled and stale
landmarks are tolerated.  A render frame never changes the stored
landmark refs, so after any interleaved trace each ref equals the
value written by the most recent corresponding detector callback (or
the initial value when none arrived), and a render frame appended to
a trace consumes exactly those stored values. -/
theorem render_frames_reuse_last_landmarks (p : RenderParams) :
    (∀ (s : TearSim) (now r1 r2 rOff rx : ℚ) (side : Bool),
      (applyEvent p s (SimEvent.renderFrame now r1 r2 rOff rx side)).face =
        s.face ∧
      (applyEvent p s (SimEvent.renderFrame now r1 r2 rOff rx side)).hands =
        s.hands) ∧
    (∀ (evs : List SimEvent) (s0 : TearSim),
      (runEvents p s0 evs).face = lastFaceWrite evs s0.face ∧
      (runEvents p s0 evs).hands = lastHandsWrite evs s0.hands) ∧
    (∀ (evs : List SimEvent) (s0 : TearSim) (now r1 r2 rOff rx : ℚ)
      (side : Bool),
      runEvents p s0 (evs ++ [SimEvent.renderFrame now r1 r2 rOff rx side]) =
        tearRender p now r1 r2 rOff rx side (runEvents p s0 evs)) := by
  have hrender : ∀ (s : TearSim) (now r1 r2 rOff rx : ℚ) (side : Bool),
      (applyEvent p s (SimEvent.renderFrame now r1 r2 rOff rx side)).face =
        s.face ∧
      (applyEvent p s (SimEvent.renderFrame now r1 r2 rOff rx side)).hands =
        s.hands := by
    intro s now r1 r2 rOff rx side
    exact ⟨rfl, rfl⟩
  refine ⟨hrender, ?_, ?_⟩
  · intro evs
    induction evs with
    | nil => intro s0; exact ⟨rfl, rfl⟩
    | cons e es ih =>
      intro s0
      cases e with
      | faceResults r =>
        simpa [runEvents, lastFaceWrite, lastHandsWrite, List.foldl_cons]
          using ih { s0 with face := decodeFace r }
      | handResults r =>
        simpa [runEvents, lastFaceWrite, lastHandsWrite, List.foldl_cons]
          using ih { s0 with hands := decodeHands r }
      | renderFrame now r1 r2 rOff rx side =>
        have h := ih (applyEvent p s0
          (SimEvent.renderFrame now r1 r2 rOff rx side))
        have hf := (hrender s0 now r1 r2 rOff rx side).1
        have hh := (hrender s0 now r1 r2 rOff rx side).2
        simp only [runEvents, lastFaceWrite, lastHandsWrite,
          List.foldl_cons] at h ⊢
        rw [h.1, h.2, hf, hh]
        exact ⟨rfl, rfl⟩
  · intro evs s0 now r1 r2 rOff rx side
    simp [runEvents, List.foldl_append, applyEvent]
